import Mathlib

/-!
Shallow embedding of the Hub scheduling core (`flubber/core/hub.py`) and of
the parts of its external collaborators (the reactor and the fiber
primitive) that the Hub code observably relies on.

Conventions:
* Python exceptions are values of `PyError`; a raising operation returns
  `Except PyError _`, or returns the error alongside the untouched state
  when the source raises before mutating anything.
* The thread-local registry `_tls` is a map from thread ids to the
  optionally-bound hub id (`none` models the attribute being absent).
* Reactor handles are modelled by the boolean flags the code reads and
  writes (`active`, `closed`); callbacks are modelled abstractly, with an
  `Except PyError Unit` standing for "invoking the callback either returns
  or raises".
-/

abbrev HubId := Nat
abbrev ThreadId := Nat

/-- Python exception values observable in `hub.py`. -/
inductive PyError where
  | RuntimeError (msg : String)
  | AttributeError (attr : String)
  | ValueError (msg : String)
  deriving DecidableEq, Repr

/-- The thread-local storage `_tls` (hub.py line 20): each thread either has
a `hub` attribute bound to a hub, or no such attribute (`none`). -/
def Tls := ThreadId → Option HubId

/-- `get_hub()` (hub.py lines 23-29): return `_tls.hub` for the current
thread `t`, raising `RuntimeError` when the attribute is absent. -/
def get_hub (tls : Tls) (t : ThreadId) : Except PyError HubId :=
  match tls t with
  | some h => .ok h
  | none => .error (.RuntimeError "there is no hub created in the current thread")

/-- The fields `Hub.__init__` assigns and `Hub.destroy` releases; a `true`
flag means the field still holds its live object (is not `None`).
`handlesClosed` records whether `_cleanup_loop` walked and closed the
reactor handles. -/
structure HubState where
  hid : HubId
  loopLive : Bool
  excepthookSet : Bool
  threadpoolLive : Bool
  timersLive : Bool
  wakerLive : Bool
  signalCheckerLive : Bool
  tickPrepareLive : Bool
  tickIdleLive : Bool
  tickCallbacksLive : Bool
  handlesClosed : Bool
  deriving DecidableEq, Repr

/-- A hub as `Hub.__init__` leaves it (hub.py lines 50-61): every field
assigned and live, no handle closed. -/
def freshHub (i : HubId) : HubState :=
  { hid := i, loopLive := true, excepthookSet := true, threadpoolLive := true,
    timersLive := true, wakerLive := true, signalCheckerLive := true,
    tickPrepareLive := true, tickIdleLive := true, tickCallbacksLive := true,
    handlesClosed := false }

/-- The singleton guard and binding of `Hub.__init__` (hub.py lines 46-50):
if `getattr(_tls, 'hub', None)` is not `None` raise `RuntimeError` (leaving
the registry untouched, since the raise precedes any assignment); otherwise
bind `_tls.hub = self` for the current thread. -/
def hubInit (tls : Tls) (t : ThreadId) (newHub : HubId) :
    Except PyError Unit × Tls :=
  match tls t with
  | some _ => (.error (.RuntimeError "cannot instantiate more than one Hub per thread"), tls)
  | none => (.ok (), fun u => if u = t then some newHub else tls u)

/-- `Hub.destroy()` (hub.py lines 92-113): reading `_tls.hub` raises
`AttributeError` when unbound, turned into `RuntimeError` ("hub is already
destroyed"); a bound hub that is not `self` raises the wrong-thread
`RuntimeError`. Both raises happen before any mutation, so the registry and
the hub are returned unchanged there. On success the binding is deleted,
`_cleanup_loop` closes every handle, the excepthook is unset and every
field is released. -/
def destroy (tls : Tls) (t : ThreadId) (self : HubState) :
    Except PyError Unit × Tls × HubState :=
  match tls t with
  | none => (.error (.RuntimeError "hub is already destroyed"), tls, self)
  | some h =>
    if h = self.hid then
      (.ok (), fun u => if u = t then none else tls u,
        { self with loopLive := false, excepthookSet := false,
                    threadpoolLive := false, timersLive := false,
                    wakerLive := false, signalCheckerLive := false,
                    tickPrepareLive := false, tickIdleLive := false,
                    tickCallbacksLive := false, handlesClosed := true })
    else
      (.error (.RuntimeError "destroy() can only be called from the same thread were the hub was created"), tls, self)

/-- Claim C1: on any thread, constructing a Hub while another Hub is bound
to that thread fails with the `RuntimeError` of the singleton guard and
leaves the existing binding unchanged; after a successful `destroy()` the
binding is removed, so a new Hub can then be constructed on that thread
without error. -/
theorem C1_hub_singleton (tls : Tls) (t : ThreadId) (h : HubId) (self : HubState)
    (hb : tls t = some h) (hself : self.hid = h) :
    (∀ n, hubInit tls t n =
      (.error (.RuntimeError "cannot instantiate more than one Hub per thread"), tls)) ∧
    (destroy tls t self).1 = .ok () ∧
    (destroy tls t self).2.1 t = none ∧
    (∀ n, (hubInit (destroy tls t self).2.1 t n).1 = .ok ()) := by
  refine ⟨fun n => ?_, ?_, ?_, fun n => ?_⟩ <;>
    simp [hubInit, destroy, hb, hself]

/-- Witness for C1 at a concrete registry: thread 0 has hub 7 bound. -/
theorem C1_hub_singleton_witness :
    (∀ n, hubInit (fun u => if u = 0 then some 7 else none) 0 n =
      (.error (.RuntimeError "cannot instantiate more than one Hub per thread"),
        (fun u => if u = 0 then some 7 else none))) ∧
    (destroy (fun u => if u = 0 then some 7 else none) 0 (freshHub 7)).1 = .ok () ∧
    (destroy (fun u => if u = 0 then some 7 else none) 0 (freshHub 7)).2.1 0 = none ∧
    (∀ n, (hubInit (destroy (fun u => if u = 0 then some 7 else none) 0 (freshHub 7)).2.1 0 n).1 = .ok ()) :=
  C1_hub_singleton (fun u => if u = 0 then some 7 else none) 0 7 (freshHub 7) rfl rfl

/-- Claim C9: `destroy()` fails with the already-destroyed `RuntimeError`
when no hub is bound to the current thread, and with the wrong-thread
`RuntimeError` when the bound hub is not the hub being destroyed; on either
failure the registry binding and every field of the hub are unchanged (the
hub remains live). -/
theorem C9_destroy_failures (tls : Tls) (t : ThreadId) (self : HubState) :
    (tls t = none →
      destroy tls t self = (.error (.RuntimeError "hub is already destroyed"), tls, self)) ∧
    (∀ h, tls t = some h → h ≠ self.hid →
      destroy tls t self =
        (.error (.RuntimeError "destroy() can only be called from the same thread were the hub was created"), tls, self)) := by
  constructor
  · intro hn
    simp [destroy, hn]
  · intro h hb hne
    simp [destroy, hb, hne]

/-- Witness for C9: destroying hub 7 fails on a thread with nothing bound,
and on a thread where hub 3 (a different hub) is bound; both failures
return the state unchanged, so the hub is still live. -/
theorem C9_destroy_failures_witness :
    destroy (fun _ => none) 0 (freshHub 7) =
      (.error (.RuntimeError "hub is already destroyed"), (fun _ => none), freshHub 7) ∧
    destroy (fun _ => some 3) 0 (freshHub 7) =
      (.error (.RuntimeError "destroy() can only be called from the same thread were the hub was created"),
        (fun _ => some 3), freshHub 7) ∧
    (freshHub 7).loopLive = true ∧ (freshHub 7).handlesClosed = false :=
  ⟨(C9_destroy_failures (fun _ => none) 0 (freshHub 7)).1 rfl,
   (C9_destroy_failures (fun _ => some 3) 0 (freshHub 7)).2 3 rfl (by decide),
   rfl, rfl⟩

/-- Claim C10: `get_hub()` on a thread with no hub bound raises
`RuntimeError`; when a hub is bound it returns exactly that hub. -/
theorem C10_get_hub (tls : Tls) (t : ThreadId) :
    (tls t = none →
      get_hub tls t = .error (.RuntimeError "there is no hub created in the current thread")) ∧
    (∀ h, tls t = some h → get_hub tls t = .ok h) := by
  constructor
  · intro hn; simp [get_hub, hn]
  · intro h hb; simp [get_hub, hb]

/-- Witness for C10: concrete unbound and bound registries. -/
theorem C10_get_hub_witness :
    get_hub (fun _ => none) 0 = .error (.RuntimeError "there is no hub created in the current thread") ∧
    get_hub (fun _ => some 5) 1 = .ok 5 :=
  ⟨(C10_get_hub (fun _ => none) 0).1 rfl, (C10_get_hub (fun _ => some 5) 1).2 5 rfl⟩

/-!
Timer subsystem (`_Timer`, hub.py lines 175-206). A timer is modelled by
the flags the code reads and writes: `called` (the fired/canceled flag),
`hasCb` (`self.cb` is not `None`), `timerLive` (`self._timer` is an open
reactor timer handle), `inSet` (membership in the owning hub timer set).
Invoking the user callback is abstracted by an `Except PyError Unit`:
`.ok ()` when the callback returns, `.error e` when it raises `e`.
-/

/-- Observable state of a `_Timer`. -/
structure TimerState where
  called : Bool
  hasCb : Bool
  timerLive : Bool
  inSet : Bool
  deriving DecidableEq, Repr

/-- A timer as `_Timer.__init__` leaves it (hub.py lines 177-182): not yet
called, callback retained, reactor timer started, added to the hub set. -/
def timerInit : TimerState :=
  { called := false, hasCb := true, timerLive := true, inSet := true }

/-- The error (if any) a callback invocation raises. -/
def errOf : Except PyError Unit → Option PyError
  | .ok _ => none
  | .error e => some e

/-- `_Timer._timer_cb` (hub.py lines 184-194): if `called` is already set,
nothing happens (zero invocations). Otherwise set `called`, invoke the
callback once, and in a `finally` block drop the callback, close the
reactor timer and remove the timer from the hub set; the callback error,
if any, propagates only after that cleanup. Result: new state, number of
callback invocations, propagated error. -/
def timerFire (s : TimerState) (r : Except PyError Unit) :
    TimerState × Nat × Option PyError :=
  if s.called then (s, 0, none)
  else
    ({ called := true, hasCb := false, timerLive := false, inSet := false },
      1, errOf r)

/-- `_Timer.cancel` (hub.py lines 200-206): no-op when `called` is already
set; otherwise set `called`, close the reactor timer and remove the timer
from the hub set (the callback reference itself is not dropped here). -/
def timerCancel (s : TimerState) : TimerState :=
  if s.called then s
  else { s with called := true, timerLive := false, inSet := false }

/-- Claim C2: firing a pending timer invokes the callback exactly once,
marks the timer fired, drops the callback, closes the reactor timer and
removes the timer from the hub set; this cleanup happens also when the
callback raises, with the error propagated afterwards; a second fire on
the resulting state invokes nothing and changes nothing. -/
theorem C2_timer_fire_once (s : TimerState) (r r2 : Except PyError Unit)
    (hp : s.called = false) :
    timerFire s r =
      ({ called := true, hasCb := false, timerLive := false, inSet := false },
        1, errOf r) ∧
    timerFire (timerFire s r).1 r2 = ((timerFire s r).1, 0, none) := by
  simp [timerFire, hp]

/-- Witness for C2: a fresh timer whose callback raises is still cleaned
up, with the error reported after cleanup. -/
theorem C2_timer_fire_once_witness :
    timerFire timerInit (.error (.RuntimeError "boom")) =
      ({ called := true, hasCb := false, timerLive := false, inSet := false },
        1, some (.RuntimeError "boom")) ∧
    timerFire (timerFire timerInit (.error (.RuntimeError "boom"))).1 (.ok ()) =
      ((timerFire timerInit (.error (.RuntimeError "boom"))).1, 0, none) :=
  C2_timer_fire_once timerInit (.error (.RuntimeError "boom")) (.ok ()) rfl

/-- An event a timer can receive: the reactor firing it (with the given
callback behaviour), or a cancellation request. -/
inductive TimerEvent where
  | fire (r : Except PyError Unit)
  | cancel
  deriving Repr

/-- Whether an event is a reactor fire. -/
def TimerEvent.isFire : TimerEvent → Bool
  | .fire _ => true
  | .cancel => false

/-- Apply one event to a timer, accumulating callback invocations. -/
def timerStep : TimerState × Nat → TimerEvent → TimerState × Nat
  | (s, n), .fire r => ((timerFire s r).1, n + (timerFire s r).2.1)
  | (s, n), .cancel => (timerCancel s, n)

/-- Run a fresh timer through a sequence of events. -/
def timerRun (evs : List TimerEvent) : TimerState × Nat :=
  evs.foldl timerStep (timerInit, 0)

theorem timerStep_called (s : TimerState) (n : Nat) (e : TimerEvent)
    (h : s.called = true) : timerStep (s, n) e = (s, n) := by
  cases e <;> simp [timerStep, timerFire, timerCancel, h]

theorem timerRun_aux_called (evs : List TimerEvent) (s : TimerState) (n : Nat)
    (h : s.called = true) : evs.foldl timerStep (s, n) = (s, n) := by
  induction evs with
  | nil => rfl
  | cons e rest ih => rw [List.foldl_cons, timerStep_called s n e h, ih]

/-- Claim C3: `cancel()` on an already fired-or-canceled timer changes no
state; on a pending timer it marks it fired, closes the reactor timer and
removes it from the set. Since fire and cancel both check the single
`called` flag first, any nonempty event sequence ends with the timer
settled and the callback invoked exactly once when the first event is a
fire, exactly zero times when it is a cancel — never both, never neither. -/
theorem C3_cancel_idempotent_xor (e0 : TimerEvent) (evs : List TimerEvent) :
    (∀ s : TimerState, s.called = true → timerCancel s = s) ∧
    (∀ s : TimerState, s.called = false → timerCancel s =
      { s with called := true, timerLive := false, inSet := false }) ∧
    (timerRun (e0 :: evs)).1.called = true ∧
    (timerRun (e0 :: evs)).2 = (if e0.isFire then 1 else 0) := by
  refine ⟨fun s h => by simp [timerCancel, h],
          fun s h => by simp [timerCancel, h], ?_⟩
  cases e0 with
  | fire r =>
    have h1 : timerRun (.fire r :: evs) =
        ({ called := true, hasCb := false, timerLive := false, inSet := false }, 1) := by
      unfold timerRun
      rw [List.foldl_cons]
      have hs : timerStep (timerInit, 0) (.fire r) =
          ({ called := true, hasCb := false, timerLive := false, inSet := false }, 1) := by
        simp [timerStep, timerFire, timerInit]
      rw [hs, timerRun_aux_called _ _ _ rfl]
    rw [h1]
    exact ⟨rfl, rfl⟩
  | cancel =>
    have h1 : timerRun (.cancel :: evs) =
        ({ called := true, hasCb := true, timerLive := false, inSet := false }, 0) := by
      unfold timerRun
      rw [List.foldl_cons]
      have hs : timerStep (timerInit, 0) .cancel =
          ({ called := true, hasCb := true, timerLive := false, inSet := false }, 0) := by
        simp [timerStep, timerCancel, timerInit]
      rw [hs, timerRun_aux_called _ _ _ rfl]
    rw [h1]
    exact ⟨rfl, rfl⟩

/-- Witness for C3: canceling an already-settled timer is the identity; a
cancel-first run invokes the callback zero times, a fire-first run invokes
it once; both runs end settled. -/
theorem C3_cancel_idempotent_xor_witness :
    timerCancel { called := true, hasCb := false, timerLive := false, inSet := false } =
      { called := true, hasCb := false, timerLive := false, inSet := false } ∧
    (timerRun [.cancel, .fire (.ok ())]).2 = 0 ∧
    (timerRun [.fire (.ok ()), .cancel]).2 = 1 ∧
    (timerRun [.cancel, .fire (.ok ())]).1.called = true ∧
    (timerRun [.fire (.ok ()), .cancel]).1.called = true :=
  ⟨(C3_cancel_idempotent_xor .cancel []).1 _ rfl,
   (C3_cancel_idempotent_xor .cancel [.fire (.ok ())]).2.2.2,
   (C3_cancel_idempotent_xor (.fire (.ok ())) [.cancel]).2.2.2,
   (C3_cancel_idempotent_xor .cancel [.fire (.ok ())]).2.2.1,
   (C3_cancel_idempotent_xor (.fire (.ok ())) [.cancel]).2.2.1⟩

/-!
Next-tick batching (hub.py lines 59-61, 78-82, 167-172). A queued callback
is modelled as an identifier together with the callbacks its body enqueues
via `next_tick` when invoked; invoking a callback records its identifier.
The tick state carries the `active` flags of the `_tick_prepare` and
`_tick_idle` handles, the `_tick_callbacks` deque, and a count of how many
times `_tick_prepare.start` has been called (the turn-marker armings).
-/

/-- A tick callback: its identifier and the callbacks it enqueues when run. -/
inductive Cb where
  | mk (ident : Nat) (spawns : List Cb)

/-- The identifier of a callback. -/
def Cb.ident : Cb → Nat
  | .mk i _ => i

/-- The callbacks a callback enqueues while it runs. -/
def Cb.spawns : Cb → List Cb
  | .mk _ s => s

/-- State of the tick mechanism. -/
structure TickState where
  prepareActive : Bool
  idleActive : Bool
  queue : List Cb
  armCount : Nat

/-- `Hub.next_tick` (hub.py lines 78-82): append the callback to
`_tick_callbacks`; if `_tick_prepare` is not active, start it (counted as
one arming) and start `_tick_idle`. -/
def next_tick (s : TickState) (f : Cb) : TickState :=
  let s1 := { s with queue := s.queue ++ [f] }
  if s1.prepareActive then s1
  else { s1 with prepareActive := true, idleActive := true,
                 armCount := s1.armCount + 1 }

/-- One iteration of the flush loop in `_tick_cb`: invoke the callback
(record its identifier) — its body enqueues its spawned callbacks via
`next_tick`, which land in the current (new) queue. -/
def flushStep (acc : TickState × List Nat) (f : Cb) : TickState × List Nat :=
  (f.spawns.foldl next_tick acc.1, acc.2 ++ [f.ident])

/-- `Hub._tick_cb` (hub.py lines 167-172): stop `_tick_prepare` and
`_tick_idle`, swap `_tick_callbacks` for an empty deque, then invoke every
callback of the swapped-out queue in FIFO order. -/
def tick_cb (s : TickState) : TickState × List Nat :=
  let s1 := { s with prepareActive := false, idleActive := false, queue := [] }
  s.queue.foldl flushStep (s1, [])

theorem next_tick_queue (s : TickState) (f : Cb) :
    (next_tick s f).queue = s.queue ++ [f] := by
  unfold next_tick
  by_cases hp : s.prepareActive <;> simp [hp]

theorem next_tick_active (s : TickState) (f : Cb) :
    (next_tick s f).prepareActive = true := by
  unfold next_tick
  by_cases hp : s.prepareActive <;> simp [hp]

theorem foldl_next_tick_queue (fs : List Cb) (s : TickState) :
    (fs.foldl next_tick s).queue = s.queue ++ fs := by
  induction fs generalizing s with
  | nil => simp
  | cons f rest ih => rw [List.foldl_cons, ih, next_tick_queue]; simp

theorem foldl_next_tick_active (fs : List Cb) (s : TickState) :
    ((fs.foldl next_tick s).prepareActive = true ↔
      (s.prepareActive = true ∨ fs ≠ [])) := by
  induction fs generalizing s with
  | nil => simp
  | cons f rest ih =>
    rw [List.foldl_cons, ih]
    simp [next_tick_active]

theorem foldl_next_tick_arm_active (fs : List Cb) (s : TickState)
    (h : s.prepareActive = true) :
    (fs.foldl next_tick s).armCount = s.armCount := by
  induction fs generalizing s with
  | nil => rfl
  | cons f rest ih =>
    rw [List.foldl_cons, ih _ (next_tick_active s f)]
    unfold next_tick
    simp [h]

theorem flush_aux (q : List Cb) (s : TickState) (out : List Nat) :
    (q.foldl flushStep (s, out)).2 = out ++ q.map Cb.ident ∧
    (q.foldl flushStep (s, out)).1.queue = s.queue ++ (q.map Cb.spawns).flatten ∧
    ((q.foldl flushStep (s, out)).1.prepareActive = true ↔
      (s.prepareActive = true ∨ (q.map Cb.spawns).flatten ≠ [])) := by
  induction q generalizing s out with
  | nil => simp
  | cons f rest ih =>
    rw [List.foldl_cons]
    have h := ih (f.spawns.foldl next_tick s) (out ++ [f.ident])
    refine ⟨?_, ?_, ?_⟩
    · show (rest.foldl flushStep (f.spawns.foldl next_tick s, out ++ [f.ident])).2 = _
      rw [h.1]; simp
    · show (rest.foldl flushStep (f.spawns.foldl next_tick s, out ++ [f.ident])).1.queue = _
      rw [h.2.1, foldl_next_tick_queue]; simp
    · show ((rest.foldl flushStep (f.spawns.foldl next_tick s, out ++ [f.ident])).1.prepareActive = true ↔ _)
      rw [h.2.2, foldl_next_tick_active]
      simp only [List.map_cons, List.flatten_cons, ne_eq, List.append_eq_nil]
      tauto

/-- Claim C4: starting a turn with the marker inactive and an empty queue,
enqueuing the callbacks `fs` (N ≥ 1 of them) arms the turn marker exactly
once and queues them in order; when the marker fires, the flush invokes
exactly those callbacks in FIFO enqueue order, every callback enqueued
during the flush lands in the new queue without being invoked in this
flush, and afterwards the marker is armed only if the new queue is
nonempty (it was disarmed at the start of the flush). -/
theorem C4_tick_batching (s0 : TickState) (fs : List Cb)
    (h0 : s0.prepareActive = false) (hq : s0.queue = []) (hfs : fs ≠ []) :
    (fs.foldl next_tick s0).armCount = s0.armCount + 1 ∧
    (fs.foldl next_tick s0).queue = fs ∧
    (tick_cb (fs.foldl next_tick s0)).2 = fs.map Cb.ident ∧
    (tick_cb (fs.foldl next_tick s0)).1.queue = (fs.map Cb.spawns).flatten ∧
    ((tick_cb (fs.foldl next_tick s0)).1.prepareActive = true ↔
      (fs.map Cb.spawns).flatten ≠ []) := by
  obtain ⟨f, rest, rfl⟩ : ∃ f rest, fs = f :: rest := by
    cases fs with
    | nil => exact absurd rfl hfs
    | cons f rest => exact ⟨f, rest, rfl⟩
  have harm : (List.foldl next_tick s0 (f :: rest)).armCount = s0.armCount + 1 := by
    rw [List.foldl_cons, foldl_next_tick_arm_active _ _ (next_tick_active s0 f)]
    unfold next_tick
    simp [h0]
  have hqueue : (List.foldl next_tick s0 (f :: rest)).queue = f :: rest := by
    rw [foldl_next_tick_queue, hq]; simp
  have hflush := flush_aux ((List.foldl next_tick s0 (f :: rest)).queue)
    { List.foldl next_tick s0 (f :: rest) with
        prepareActive := false, idleActive := false, queue := [] } []
  refine ⟨harm, hqueue, ?_, ?_, ?_⟩
  · show (List.foldl flushStep _ _).2 = _
    rw [hflush.1, hqueue]; simp
  · show (List.foldl flushStep _ _).1.queue = _
    rw [hflush.2.1, hqueue]; simp
  · show ((List.foldl flushStep _ _).1.prepareActive = true ↔ _)
    rw [hflush.2.2, hqueue]
    simp

/-- Witness for C4: two callbacks enqueued in one turn, the second of which
enqueues a third during the flush; one arming, FIFO invocation of the
first two, the third deferred to the new queue with the marker re-armed. -/
theorem C4_tick_batching_witness :
    (([Cb.mk 1 [], Cb.mk 2 [Cb.mk 3 []]].foldl next_tick
        ⟨false, false, [], 0⟩).armCount = 0 + 1) ∧
    (([Cb.mk 1 [], Cb.mk 2 [Cb.mk 3 []]].foldl next_tick
        ⟨false, false, [], 0⟩).queue = [Cb.mk 1 [], Cb.mk 2 [Cb.mk 3 []]]) ∧
    ((tick_cb ([Cb.mk 1 [], Cb.mk 2 [Cb.mk 3 []]].foldl next_tick
        ⟨false, false, [], 0⟩)).2 = [1, 2]) ∧
    ((tick_cb ([Cb.mk 1 [], Cb.mk 2 [Cb.mk 3 []]].foldl next_tick
        ⟨false, false, [], 0⟩)).1.queue = [Cb.mk 3 []]) ∧
    ((tick_cb ([Cb.mk 1 [], Cb.mk 2 [Cb.mk 3 []]].foldl next_tick
        ⟨false, false, [], 0⟩)).1.prepareActive = true ↔
      ([Cb.mk 3 []] : List Cb) ≠ []) := by
  have h := C4_tick_batching ⟨false, false, [], 0⟩
    [Cb.mk 1 [], Cb.mk 2 [Cb.mk 3 []]] rfl rfl (List.cons_ne_nil _ _)
  exact ⟨h.1, h.2.1, h.2.2.1, h.2.2.2.1, h.2.2.2.2⟩

/-!
Reactor error hook (`Hub._handle_error`, hub.py lines 141-150) with the
exception taxonomy of lines 43-44. Attribute lookup on the Hub object is
modelled explicitly, because the deferred branch of `_handle_error` reads
`self.parent` and the `Hub` class defines no such attribute.
-/

/-- The exception classes `_handle_error` distinguishes. -/
inductive ExcType where
  | KeyboardInterrupt
  | SystemExit
  | SystemError
  | GreenletExit
  | OtherExc
  deriving DecidableEq, Repr

/-- `Hub.SYSTEM_ERROR` (hub.py line 43). -/
def SYSTEM_ERROR : ExcType → Bool
  | .KeyboardInterrupt | .SystemExit | .SystemError => true
  | _ => false

/-- `Hub.NOT_ERROR` (hub.py line 44). -/
def NOT_ERROR : ExcType → Bool
  | .GreenletExit | .SystemExit => true
  | _ => false

/-- The attributes a `Hub` instance has: the fields `__init__` assigns
(hub.py lines 50-61) and the methods of the class body. There is no
attribute named parent. -/
def hubHasAttr : String → Bool
  | "greenlet" | "loop" | "threadpool"
  | "_timers" | "_waker" | "_signal_checker"
  | "_tick_prepare" | "_tick_idle" | "_tick_callbacks"
  | "SYSTEM_ERROR" | "NOT_ERROR"
  | "switch" | "switch_out" | "next_tick" | "join" | "destroy"
  | "call_later" | "call_from_thread"
  | "_handle_error" | "_run_loop" | "_cleanup_loop" | "_tick_cb" => true
  | _ => false

/-- Python attribute lookup on a Hub instance: `AttributeError` when the
attribute does not exist. -/
def hubGetattr (attr : String) : Except PyError Unit :=
  if hubHasAttr attr then .ok () else .error (.AttributeError attr)

/-- What the error hook does with the error after logging. -/
inductive ErrAction where
  | swallowed
  | syncThrowToHubParent (t : ExcType)
  | deferredThrowToHubParent (t : ExcType)
  deriving DecidableEq, Repr

/-- `Hub._handle_error` (hub.py lines 141-150): print the traceback unless
the type is in `NOT_ERROR`; if the type is in `SYSTEM_ERROR` and the
current fiber is the hub fiber, throw into `self.greenlet.parent`
synchronously; otherwise evaluate `self.parent` (an attribute lookup on
the Hub object) and hand its `throw` to `next_tick`. Result: whether the
traceback was printed, and the action taken or the error the hook itself
raised. -/
def handle_error (currentIsHubFiber : Bool) (t : ExcType) :
    Bool × Except PyError ErrAction :=
  let logged := !(NOT_ERROR t)
  (logged,
    if SYSTEM_ERROR t then
      if currentIsHubFiber then
        .ok (.syncThrowToHubParent t)
      else
        match hubGetattr "parent" with
        | .ok _ => .ok (.deferredThrowToHubParent t)
        | .error e => .error e
    else
      .ok .swallowed)

/-- Claim C5 (code bug): on the deferred path — a `SYSTEM_ERROR` reaching
the hook while the current fiber is not the hub fiber — the code reads
`self.parent`, an attribute the Hub does not have, so the hook raises
`AttributeError` instead of deferring a throw into the hub fiber parent;
the synchronous path (current fiber is the hub fiber) does re-raise into
the hub fiber parent as claimed. `SystemExit`, being in `NOT_ERROR` as
well, is additionally not logged on either path. -/
theorem C5_handle_error_deferred_bug :
    handle_error false .KeyboardInterrupt = (true, .error (.AttributeError "parent")) ∧
    handle_error false .SystemError = (true, .error (.AttributeError "parent")) ∧
    handle_error true .KeyboardInterrupt =
      (true, .ok (.syncThrowToHubParent .KeyboardInterrupt)) ∧
    handle_error true .SystemExit = (false, .ok (.syncThrowToHubParent .SystemExit)) ∧
    hubHasAttr "parent" = false :=
  ⟨rfl, rfl, rfl, rfl, rfl⟩

/-!
Fiber switch protocol (`Hub.switch`, hub.py lines 63-76) over the fiber
primitive. The fiber primitive is the external greenlet library
(re-exported by `flubber/core/_greenlet`, a module not under `src/`);
following the spec fiber contract it provides a parent-link tree whose
setter fails on cycles, a current fiber, and an optional per-fiber
switching-out hook. A fiber carries a hook only if one was attached to it;
`hub.py` creates the hub fiber as a bare `greenlet(self._run_loop)` and
attaches no hook to it.
-/

abbrev FiberId := Nat

/-- The parent links of the fiber tree. -/
abbrev ParentMap := FiberId → Option FiberId

/-- Whether `b` occurs in the ancestor chain `a, parent a, ...`, walking at
most `fuel` links. -/
def reachesIn (par : ParentMap) : Nat → FiberId → FiberId → Bool
  | 0, a, b => a == b
  | fuel + 1, a, b =>
      a == b ||
        (match par a with
         | some p => reachesIn par fuel p b
         | none => false)

/-- Modelled from the spec: the fiber-contract parent setter (spec section
on external interfaces; the greenlet library behind the missing
`flubber/core/_greenlet` shim). Setting `g.parent = p` fails with
`ValueError` when that would create a cycle — when `g` is `p` or an
ancestor of `p` — and otherwise updates the link. -/
def setParent (par : ParentMap) (fuel : Nat) (g p : FiberId) :
    Except PyError ParentMap :=
  if reachesIn par fuel p g then .error (.ValueError "cyclic parent chain")
  else .ok (fun x => if x = g then some p else par x)

/-- Steps observable during `Hub.switch`. -/
inductive SwitchEvent where
  | hookRan (g : FiberId)
  | parentSet (g p : FiberId)
  | transferred (g : FiberId)
  deriving DecidableEq, Repr

/-- The tail of `Hub.switch` after the hook (hub.py lines 68-73): unless
the hub fiber parent is the current fiber, try to set the current fiber
parent to the hub fiber, swallowing the `ValueError` a parent cycle
raises; then transfer control to the hub fiber. -/
def hubSwitchTail (par : ParentMap) (fuel : Nat) (hubFiber current : FiberId) :
    List SwitchEvent × ParentMap :=
  let step :=
    if par hubFiber ≠ some current then
      match setParent par fuel current hubFiber with
      | .ok p => ([SwitchEvent.parentSet current hubFiber], p)
      | .error _ => ([], par)
    else ([], par)
  (step.1 ++ [SwitchEvent.transferred hubFiber], step.2)

/-- `Hub.switch` (hub.py lines 63-73): look up `switch_out` on the current
fiber; if present, run it first (a raising hook propagates); then run the
parent-link step and transfer to the hub fiber. -/
def hubSwitch (hooks : FiberId → Option (Except PyError Unit))
    (par : ParentMap) (fuel : Nat) (hubFiber current : FiberId) :
    Except PyError (List SwitchEvent × ParentMap) :=
  match hooks current with
  | some (.error e) => .error e
  | some (.ok _) =>
      let tail := hubSwitchTail par fuel hubFiber current
      .ok (SwitchEvent.hookRan current :: tail.1, tail.2)
  | none =>
      let tail := hubSwitchTail par fuel hubFiber current
      .ok (tail.1, tail.2)

theorem reachesIn_self (par : ParentMap) (fuel : Nat) (a : FiberId) :
    reachesIn par fuel a a = true := by
  cases fuel <;> simp [reachesIn]

theorem reachesIn_parent (par : ParentMap) (fuel : Nat) (a b : FiberId)
    (h : par a = some b) (hf : 1 ≤ fuel) : reachesIn par fuel a b = true := by
  match fuel, hf with
  | fuel + 1, _ => simp [reachesIn, h, reachesIn_self]

theorem hubSwitchTail_eq (par : ParentMap) (fuel : Nat) (hubFiber current : FiberId)
    (hfuel : 1 ≤ fuel) :
    hubSwitchTail par fuel hubFiber current =
      if reachesIn par fuel hubFiber current then
        ([SwitchEvent.transferred hubFiber], par)
      else
        ([SwitchEvent.parentSet current hubFiber, SwitchEvent.transferred hubFiber],
          fun x => if x = current then some hubFiber else par x) := by
  unfold hubSwitchTail setParent
  by_cases hpar : par hubFiber = some current
  · have hcyc := reachesIn_parent par fuel hubFiber current hpar hfuel
    simp [hpar, hcyc]
  · by_cases hcyc : reachesIn par fuel hubFiber current = true
    · simp [hpar, hcyc]
    · simp only [Bool.not_eq_true] at hcyc
      simp [hpar, hcyc]

/-- Claim C6: `switch()` runs the current fiber switching-out hook (when
there is one, and it is run before everything else); then, when linking
the current fiber under the hub fiber would create a cycle, the parent
links are left unchanged and nothing is raised, and otherwise the current
fiber parent is set to the hub fiber; finally control transfers to the hub
fiber. -/
theorem C6_switch_protocol (hooks : FiberId → Option (Except PyError Unit))
    (par : ParentMap) (fuel : Nat) (hubFiber current : FiberId)
    (hfuel : 1 ≤ fuel)
    (hhook : hooks current = none ∨ hooks current = some (.ok ())) :
    ∃ evs par2,
      hubSwitch hooks par fuel hubFiber current = .ok (evs, par2) ∧
      (∀ r, hooks current = some r → evs.head? = some (.hookRan current)) ∧
      (reachesIn par fuel hubFiber current = true → par2 = par) ∧
      (reachesIn par fuel hubFiber current = false →
        par2 = fun x => if x = current then some hubFiber else par x) ∧
      evs.getLast? = some (.transferred hubFiber) := by
  have htail := hubSwitchTail_eq par fuel hubFiber current hfuel
  by_cases hcyc : reachesIn par fuel hubFiber current = true
  · rw [if_pos hcyc] at htail
    rcases hhook with h | h
    · refine ⟨[SwitchEvent.transferred hubFiber], par, ?_, ?_, ?_, ?_, ?_⟩
      · simp [hubSwitch, h, htail]
      · intro r hr; rw [h] at hr; exact Option.noConfusion hr
      · intro _; rfl
      · intro hf; rw [hcyc] at hf; exact Bool.noConfusion hf
      · rfl
    · refine ⟨[SwitchEvent.hookRan current, SwitchEvent.transferred hubFiber], par,
        ?_, ?_, ?_, ?_, ?_⟩
      · simp [hubSwitch, h, htail]
      · intro r _; rfl
      · intro _; rfl
      · intro hf; rw [hcyc] at hf; exact Bool.noConfusion hf
      · rfl
  · rw [if_neg hcyc] at htail
    rcases hhook with h | h
    · refine ⟨[SwitchEvent.parentSet current hubFiber, SwitchEvent.transferred hubFiber],
        fun x => if x = current then some hubFiber else par x, ?_, ?_, ?_, ?_, ?_⟩
      · simp [hubSwitch, h, htail]
      · intro r hr; rw [h] at hr; exact Option.noConfusion hr
      · intro hf; exact absurd hf hcyc
      · intro _; rfl
      · rfl
    · refine ⟨[SwitchEvent.hookRan current, SwitchEvent.parentSet current hubFiber,
          SwitchEvent.transferred hubFiber],
        fun x => if x = current then some hubFiber else par x, ?_, ?_, ?_, ?_, ?_⟩
      · simp [hubSwitch, h, htail]
      · intro r _; rfl
      · intro hf; exact absurd hf hcyc
      · intro _; rfl
      · rfl

/-- Hooks of the two-fiber switch scenario: task fiber 2 carries a
switching-out hook that returns normally; no other fiber carries one. -/
def hooksDemo : FiberId → Option (Except PyError Unit) :=
  fun g => if g = 2 then some (Except.ok ()) else none

/-- Parent links of the two-fiber switch scenario: the hub fiber 1 is a
child of the main fiber 0; task fiber 2 has no parent link yet. -/
def parC6 : ParentMap := fun x => if x = 1 then some 0 else none

/-- Witness for C6: task fiber 2 (carrying a hook) switches into the hub
whose fiber is 1 (child of main fiber 0); the hook runs first, 2 is
re-parented under 1, control transfers to 1. -/
theorem C6_switch_protocol_witness :
    ∃ evs par2,
      hubSwitch hooksDemo parC6 3 1 2 = .ok (evs, par2) ∧
      (∀ r, hooksDemo 2 = some r → evs.head? = some (.hookRan 2)) ∧
      (reachesIn parC6 3 1 2 = true → par2 = parC6) ∧
      (reachesIn parC6 3 1 2 = false →
        par2 = fun x => if x = 2 then some 1 else parC6 x) ∧
      evs.getLast? = some (.transferred 1) :=
  C6_switch_protocol hooksDemo parC6 3 1 2 (by decide) (Or.inr rfl)

/-- `Hub.switch_out` (hub.py lines 75-76): a method on the Hub object that
raises the invalid-switch `RuntimeError`. `Hub.switch` looks the
switching-out hook up on the current fiber, and nothing in hub.py attaches
this method to `self.greenlet`, so no fiber carries it. -/
def hub_switch_out : Except PyError Unit :=
  .error (.RuntimeError "Cannot switch to MAINLOOP from MAINLOOP")

/-- Parent links of the self-switch scenario: the hub fiber 1 is a child of
the main fiber 0. -/
def parDemo : ParentMap := fun x => if x = 1 then some 0 else none

/-- Claim C7 (code bug): the hub fiber — fiber 1, created bare on hub.py
line 51, so carrying no switching-out hook — calling `switch()` on its own
hub does not raise: the cyclic self-parent assignment raises `ValueError`,
which `switch` swallows, and the call completes as a transfer to the
already-running hub fiber. The InvalidSwitch guard `hub_switch_out` exists
on the Hub object, where the per-fiber hook lookup of `Hub.switch` never
finds it. -/
theorem C7_self_switch_not_guarded :
    hubSwitch (fun _ => none) parDemo 2 1 1 =
      .ok ([SwitchEvent.transferred 1], parDemo) ∧
    hub_switch_out = .error (.RuntimeError "Cannot switch to MAINLOOP from MAINLOOP") :=
  ⟨rfl, rfl⟩

/-!
Cross-thread invocation (`Hub.call_from_thread`, hub.py lines 125-137).
-/

/-- A one-shot reactor async-wake handle. -/
structure AsyncHandle where
  closed : Bool
  sent : Bool
  deriving DecidableEq, Repr

/-- `Hub.call_from_thread` (hub.py lines 125-137): allocate a fresh
one-shot async handle on the hub loop, with `_cb` as its callback, and
send it from the calling thread. -/
def call_from_thread : AsyncHandle := { closed := false, sent := true }

/-- The body of `_cb` (hub.py lines 131-135): invoke `func` once inside
`try`, close the handle in the `finally` whether or not `func` raised, and
let the error (if any) propagate after the close. -/
def asyncCb (h : AsyncHandle) (funcResult : Except PyError Unit) :
    AsyncHandle × Nat × Option PyError :=
  ({ h with closed := true }, 1, errOf funcResult)

/-- The reactor on the hub thread observing the wake (by the reactor
contract, loop callbacks run on the loop thread): a closed handle never
fires; otherwise `_cb` runs once on the hub thread. Result: handle,
invocation count of `func`, thread the invocation ran on, propagated
error. -/
def observeWake (hubThread : ThreadId) (h : AsyncHandle)
    (funcResult : Except PyError Unit) :
    AsyncHandle × Nat × ThreadId × Option PyError :=
  if h.closed then (h, 0, hubThread, none)
  else
    let r := asyncCb h funcResult
    (r.1, r.2.1, hubThread, r.2.2)

/-- Claim C8: `call_from_thread` creates a fresh sent, not-yet-closed
one-shot handle; when the reactor observes the wake, `func` runs exactly
once, on the hub thread, and the handle ends closed whether or not `func`
raised, with the error propagated after the close; a later observation of
the closed handle invokes nothing. -/
theorem C8_call_from_thread_once (hubThread : ThreadId) (r r2 : Except PyError Unit) :
    call_from_thread.sent = true ∧
    call_from_thread.closed = false ∧
    observeWake hubThread call_from_thread r =
      ({ closed := true, sent := true }, 1, hubThread, errOf r) ∧
    observeWake hubThread (observeWake hubThread call_from_thread r).1 r2 =
      ((observeWake hubThread call_from_thread r).1, 0, hubThread, none) :=
  ⟨rfl, rfl, rfl, rfl⟩
